import Mathlib

/-!
Verification development for `colortool/skybox_analyzer.py`.

The Python source is shallowly embedded below.  Conventions used
throughout:

* Python exceptions are modelled by `Option`/`Except`: a swallowed
  exception (`try ... except: continue`) becomes a `none` that the caller
  drops; an uncaught exception becomes an `Except.error` result.
* PIL pixel values are either a bare integer (single-channel modes) or a
  tuple of channel integers; that sum type is `PyVal`.
* Python `float` arithmetic on the small decimal constants of this
  program is modelled by exact rational arithmetic (`ℚ`), and `round`
  by round-half-to-even, matching Python semantics on the values the
  claims touch.  Integer `//`, `int()` on nonnegative values, and `min`
  are modelled exactly.
-/

/-- A Python value as returned by `PIL.Image.getpixel` / `getdata`:
either a bare int (e.g. mode "L") or a tuple of channel ints. -/
inductive PyVal where
  | vint (n : Nat)
  | vtup (l : List Nat)
deriving DecidableEq, Repr

/-- Round-half-to-even to an integer, the semantics of Python `round`. -/
def roundHalfEven (q : ℚ) : ℤ :=
  let f := ⌊q⌋
  let r := q - f
  if r < 1/2 then f
  else if 1/2 < r then f + 1
  else if 2 ∣ f then f else f + 1

/-- Python `round(q, d)`: round to `d` decimal places, ties to even. -/
def pyround (q : ℚ) (d : Nat) : ℚ :=
  (roundHalfEven (q * (10 : ℚ) ^ d) : ℚ) / (10 : ℚ) ^ d

/-- Two-or-more hex digits of `n`, zero-padded to width 2: Python `f"{n:02x}"`. -/
def hex2 (n : Nat) : String :=
  let ds := Nat.toDigits 16 n
  String.mk (if ds.length < 2 then '0' :: ds else ds)

/-- Source `rgb_to_hex`: `f"#{r:02x}{g:02x}{b:02x}"`. -/
def rgb_to_hex (r g b : Nat) : String :=
  "#" ++ hex2 r ++ hex2 g ++ hex2 b

/-- Godot color: three floats in the 0-1 range, rounded to 3 decimals. -/
structure Godot where
  r : ℚ
  g : ℚ
  b : ℚ
deriving DecidableEq, Repr

/-- Source `rgb_to_godot`: each channel `round(c / 255.0, 3)`. -/
def rgb_to_godot (r g b : Nat) : Godot :=
  { r := pyround ((r : ℚ) / 255) 3
    g := pyround ((g : ℚ) / 255) 3
    b := pyround ((b : ℚ) / 255) 3 }

/-- Python `os.path.basename` restricted to `/` separators: the part of the
string after the last `/`. -/
def basename (s : String) : String :=
  String.mk (s.data.foldl (fun acc c => if c = '/' then [] else acc ++ [c]) [])

/-- Index of the last `.` in a character list, if any (Python `str.rfind`). -/
def rfindDot (cs : List Char) : Option Nat :=
  (List.range cs.length).foldl
    (fun acc i => if cs.getD i ' ' = '.' then some i else acc) none

/-- Python `pathlib.Path(filename).stem`: the final path component with its last
suffix removed; a suffix is a `.` at position `i` with `0 < i < len - 1`.
Faithful for filenames without trailing slashes or `.`/`..` components
(the theorems below restrict to slash-free filenames). -/
def pathStem (filename : String) : String :=
  let nm := basename filename
  let cs := nm.data
  match rfindDot cs with
  | some i => if 0 < i ∧ i < cs.length - 1 then String.mk (cs.take i) else nm
  | none => nm

/-- Python `str.upper` on ASCII characters (identity elsewhere; the
theorems about the filename parser restrict to ASCII input). -/
def pyUpper (c : Char) : Char :=
  if 'a' ≤ c ∧ c ≤ 'z' then Char.ofNat (c.toNat - 32) else c

/-- Whether `c` is an ASCII decimal digit (Python `\d` restricted to ASCII). -/
def isAsciiDigit (c : Char) : Bool :=
  '0' ≤ c ∧ c ≤ '9'

/-- The five valid orientation letters, `ORIENTATIONS` in the source. -/
def ORIENTATIONS : List Char := ['W', 'E', 'N', 'S', 'U']

/-- Model of `re.match(r'^([WENSU])(\d{2})$', name)` on the (already uppercased)
stem.  Per Python regex semantics, `$` matches at the end of the string
*or just before a newline at the end of the string*, so a stem of the
shape `X` `d` `d` `'\n'` also matches. -/
def regexMatchWENSU : List Char → Option (Char × Char × Char)
  | [o, d1, d2] =>
    if o ∈ ORIENTATIONS ∧ isAsciiDigit d1 ∧ isAsciiDigit d2 then
      some (o, d1, d2)
    else none
  | [o, d1, d2, nl] =>
    if nl = '\n' ∧ o ∈ ORIENTATIONS ∧ isAsciiDigit d1 ∧ isAsciiDigit d2 then
      some (o, d1, d2)
    else none
  | _ => none

/-- Source `parse_orientation_hour_from_filename`.  `none`
models the Python return value `(None, None)`. -/
def parse_orientation_hour_from_filename (filename : String) :
    Option (Char × Nat) :=
  let name := (pathStem filename).data.map pyUpper
  match regexMatchWENSU name with
  | some (o, d1, d2) =>
    let hour := (d1.toNat - 48) * 10 + (d2.toNat - 48)
    if hour ≤ 23 then some (o, hour) else none
  | none => none

/-- An opened raster image: dimensions, a pixel function, and the pixel
data of the library's `resize((100, 100))` downsample (PIL is an
external collaborator; its resampled data is carried as a field). -/
structure Image where
  width : Nat
  height : Nat
  pix : Int → Int → PyVal
  resized100 : List PyVal

/-- Model of `img.getpixel((x, y))`: `some` pixel when in bounds, `none` models
the `IndexError` raised out of bounds. -/
def getpixel (img : Image) (x y : Int) : Option PyVal :=
  if 0 ≤ x ∧ x < (img.width : Int) ∧ 0 ≤ y ∧ y < (img.height : Int) then
    some (img.pix x y)
  else none

/-- The line `r, g, b = pixel[:3] if len(pixel) >= 3 else (pixel, pixel, pixel)`
followed by the use of `r`, `g`, `b` as integers.
* On a bare int pixel, `len(pixel)` raises `TypeError` (`none`).
* On a tuple of length ≥ 3, the first three channels are returned.
* On a shorter tuple, the else branch binds the whole tuple to each of
  `r`, `g`, `b`, and the later `f"{r:02x}"` in `rgb_to_hex` raises
  `TypeError` (`none`), so no sample is ever produced. -/
def pixelRGB : PyVal → Option (Nat × Nat × Nat)
  | .vint _ => none
  | .vtup (a :: b :: c :: _) => some (a, b, c)
  | .vtup _ => none

/-- One recorded color sample of the vertical gradient. -/
structure ColorSample where
  position : ℚ
  rgbR : Nat
  rgbG : Nat
  rgbB : Nat
  hex : String
  godot : Godot
deriving DecidableEq, Repr

/-- One recorded color sample of a named sky zone. -/
structure ZoneSample where
  rgbR : Nat
  rgbG : Nat
  rgbB : Nat
  hex : String
  godot : Godot
deriving DecidableEq, Repr

/-- The y-coordinate of gradient sample `i`:
`y = int((height * i) / (num_samples - 1)) if num_samples > 1 else height // 2`
then `y = min(y, height - 1)`.  The float division is modelled as exact
division with truncation (they agree on all representable image sizes). -/
def gradientY (h N i : Nat) : Int :=
  min ((if 1 < N then h * i / (N - 1) else h / 2 : Nat) : Int) ((h : Int) - 1)

/-- One iteration of the `analyze_vertical_gradient` loop: `none` when
the `try` body raises (out-of-bounds read, bad pixel shape, or — for
`num_samples = 1` — the `ZeroDivisionError` in `round(i / (num_samples - 1), 2)`). -/
def sampleGradient (img : Image) (N i : Nat) : Option ColorSample :=
  let x : Int := (img.width / 2 : Nat)
  let y := gradientY img.height N i
  match getpixel img x y with
  | none => none
  | some px =>
    match pixelRGB px with
    | none => none
    | some (r, g, b) =>
      if N = 1 then none
      else
        some { position := pyround ((i : ℚ) / ((N : ℚ) - 1)) 2
               rgbR := r, rgbG := g, rgbB := b
               hex := rgb_to_hex r g b
               godot := rgb_to_godot r g b }

/-- Source `analyze_vertical_gradient(img, num_samples)`: the loop appends each
successful sample to `colors` and swallows per-sample exceptions. -/
def analyze_vertical_gradient (img : Image) (N : Nat) : List ColorSample :=
  (List.range N).foldl
    (fun acc i =>
      match sampleGradient img N i with
      | some c => acc ++ [c]
      | none => acc) []

/-- The `zones` dict of `analyze_sky_zones`, in insertion order; the float
literals are the exact decimals they denote. -/
def zonesList : List (String × ℚ) :=
  [("zenith", 1/20), ("upper_sky", 1/4), ("mid_sky", 1/2),
   ("lower_sky", 3/4), ("horizon", 9/10), ("water_line", 19/20)]

/-- The zone y-coordinate `y = min(int(height * y_percent), height - 1)` (truncation of a
nonnegative product = floor). -/
def zoneY (h : Nat) (p : ℚ) : Int :=
  min ⌊(h : ℚ) * p⌋ ((h : Int) - 1)

/-- One iteration of the `analyze_sky_zones` loop body. -/
def sampleZone (img : Image) (p : ℚ) : Option ZoneSample :=
  let x : Int := (img.width / 2 : Nat)
  let y := zoneY img.height p
  match getpixel img x y with
  | none => none
  | some px =>
    match pixelRGB px with
    | none => none
    | some (r, g, b) =>
      some { rgbR := r, rgbG := g, rgbB := b
             hex := rgb_to_hex r g b
             godot := rgb_to_godot r g b }

/-- Source `analyze_sky_zones(img)`: the result dict is modelled as an
association list in insertion order. -/
def analyze_sky_zones (img : Image) : List (String × ZoneSample) :=
  zonesList.foldl
    (fun acc z =>
      match sampleZone img z.2 with
      | some c => acc ++ [(z.1, c)]
      | none => acc) []

/-- The luma expression `0.299 * r + 0.587 * g + 0.114 * b` on the first
three channels of a tuple (only ever applied when the length is ≥ 3). -/
def luma (l : List Nat) : ℚ :=
  match l with
  | a :: b :: c :: _ => (299/1000 : ℚ) * a + (587/1000 : ℚ) * b + (114/1000 : ℚ) * c
  | _ => 0

/-- The accumulation loop of `analyze_brightness`:
`total = 0; for pixel in pixels: if len(pixel) >= 3: total += luma`.
`len(pixel)` on a bare int raises `TypeError`, which is *not* caught in
`analyze_brightness`, so the whole computation fails (`none`). -/
def lumaTotal (pixels : List PyVal) : Option ℚ :=
  pixels.foldl
    (fun acc p =>
      acc.bind fun t =>
        match p with
        | .vint _ => none
        | .vtup l => some (t + if 3 ≤ l.length then luma l else 0))
    (some 0)

/-- The brightness summary record. -/
structure Brightness where
  average : ℚ
  normalized : ℚ
  isDark : Bool
  isBright : Bool
deriving DecidableEq, Repr

/-- Source `analyze_brightness(img)`, as a function of the pixel data of the
100×100 downsample (`list(img.resize((100, 100)).getdata())`).  `none`
models an uncaught exception (`TypeError` from `len` on an int pixel, or
`ZeroDivisionError` on an empty pixel list). -/
def analyze_brightness (pixels : List PyVal) : Option Brightness :=
  match lumaTotal pixels with
  | none => none
  | some t =>
    if pixels.length = 0 then none
    else
      let avg := t / (pixels.length : ℚ)
      some { average := pyround avg 2
             normalized := pyround (avg / 255) 3
             isDark := decide (avg < 85)
             isBright := decide (170 < avg) }

/-- Python `f"{hour:02d}"`. -/
def pad2 (n : Nat) : String :=
  if n < 10 then "0" ++ toString n else toString n

/-- The per-image analysis record built by `analyze_image`. -/
structure Analysis where
  filename : String
  orientation : Char
  hour : Nat
  time : String
  width : Nat
  height : Nat
  vertical_gradient : List ColorSample
  sky_zones : List (String × ZoneSample)
  brightness : Brightness
deriving DecidableEq, Repr

/-- Source `analyze_image(image_path)`.  The image is opened *before* the
filename is parsed; `opened` is the outcome of `Image.open`.  An open
failure propagates as an exception (`Except.error`); a filename that
does not parse yields the skip result `Except.ok none`; otherwise the
full record is built (an uncaught brightness exception also
propagates). -/
def analyze_image (image_path : String) (opened : Except String Image) :
    Except String (Option Analysis) :=
  match opened with
  | .error e => .error e
  | .ok img =>
    match parse_orientation_hour_from_filename (basename image_path) with
    | none => .ok none
    | some (o, h) =>
      match analyze_brightness img.resized100 with
      | none => .error "TypeError in analyze_brightness"
      | some b =>
        .ok (some
          { filename := basename image_path
            orientation := o
            hour := h
            time := pad2 h ++ ":00"
            width := img.width
            height := img.height
            vertical_gradient := analyze_vertical_gradient img 10
            sky_zones := analyze_sky_zones img
            brightness := b })

/-- One engine-ready entry built by `build_godot_entry`; a missing zone
(`.get(name, {}).get('godot', {})`) is `none`, modelling `{}`. -/
structure GodotEntry where
  orientation : Char
  hour : Nat
  time : String
  zenith : Option Godot
  upper : Option Godot
  middle : Option Godot
  lower : Option Godot
  horizon : Option Godot
  water : Option Godot
  brightness : ℚ
deriving DecidableEq, Repr

/-- Model of `analysis['sky_zones'].get(name, {}).get('godot', {})`. -/
def lookupZoneGodot (zs : List (String × ZoneSample)) (nm : String) :
    Option Godot :=
  (List.lookup nm zs).map (·.godot)

/-- Source `build_godot_entry(analysis)`. -/
def build_godot_entry (a : Analysis) : GodotEntry :=
  { orientation := a.orientation
    hour := a.hour
    time := a.time
    zenith := lookupZoneGodot a.sky_zones "zenith"
    upper := lookupZoneGodot a.sky_zones "upper_sky"
    middle := lookupZoneGodot a.sky_zones "mid_sky"
    lower := lookupZoneGodot a.sky_zones "lower_sky"
    horizon := lookupZoneGodot a.sky_zones "horizon"
    water := lookupZoneGodot a.sky_zones "water_line"
    brightness := a.brightness.normalized }

/-- The sort key order of `sorted(all_analyses, key=lambda x: (x['orientation'], x['hour']))`:
lexicographic on the pair (orientation letter, hour), with single-letter
strings compared by code point and hours numerically. -/
def keyLE (a b : Analysis) : Prop :=
  a.orientation < b.orientation ∨ (a.orientation = b.orientation ∧ a.hour ≤ b.hour)

instance : DecidableRel keyLE := fun a b => by
  unfold keyLE; infer_instance

instance : IsTotal Analysis keyLE := by
  constructor
  intro a b
  rcases lt_trichotomy a.orientation b.orientation with h | h | h
  · exact Or.inl (Or.inl h)
  · rcases Nat.le_total a.hour b.hour with h2 | h2
    · exact Or.inl (Or.inr ⟨h, h2⟩)
    · exact Or.inr (Or.inr ⟨h.symm, h2⟩)
  · exact Or.inr (Or.inl h)

instance : IsTrans Analysis keyLE := by
  constructor
  intro a b c hab hbc
  rcases hab with h1 | ⟨e1, l1⟩
  · rcases hbc with h2 | ⟨e2, _⟩
    · exact Or.inl (h1.trans h2)
    · exact Or.inl (e2 ▸ h1)
  · rcases hbc with h2 | ⟨e2, l2⟩
    · exact Or.inl (e1 ▸ h2)
    · exact Or.inr ⟨e1.trans e2, l1.trans l2⟩

/-- Model of `sorted(all_analyses, key=lambda x: (x['orientation'], x['hour']))`:
Python's sort is the unique stable ascending sort for this key, and so
is insertion sort with `keyLE`. -/
def sortAnalyses (l : List Analysis) : List Analysis :=
  List.insertionSort keyLE l

/-- The report's `summary` object. -/
structure Summary where
  total_images : Nat
  orientations : List Char
  purpose : String
deriving DecidableEq, Repr

/-- The full report object. -/
structure Report where
  summary : Summary
  analyses : List Analysis
deriving DecidableEq, Repr

/-- Source `generate_report(all_analyses, output_dir)`, returning (full report,
engine-ready export).  `orientEnum` stands for the list produced by
`list({a['orientation'] for a in all_analyses})`: Python enumerates the
set in an order that depends on the per-process string hash seed, so the
enumeration is an extra input, constrained only by `validOrientEnum`. -/
def generate_report (all_analyses : List Analysis) (orientEnum : List Char) :
    Report × List GodotEntry :=
  let sortedA := sortAnalyses all_analyses
  ({ summary :=
      { total_images := all_analyses.length
        orientations := orientEnum
        purpose := "Skybox color extraction by orientation and hour" }
     analyses := sortedA },
   sortedA.map build_godot_entry)

/-- Whether `e` is a possible result of `list({a['orientation'] for a in all_analyses})`:
duplicate-free and containing exactly the orientations present. -/
def validOrientEnum (all_analyses : List Analysis) (e : List Char) : Prop :=
  e.Nodup ∧ (∀ c ∈ e, c ∈ all_analyses.map (·.orientation)) ∧
    (∀ c ∈ all_analyses.map (·.orientation), c ∈ e)

instance (l : List Analysis) (e : List Char) :
    Decidable (validOrientEnum l e) := by
  unfold validOrientEnum; infer_instance

/-- A solid-color RGB image: every pixel is the tuple `(r, g, b)`, and
the 100×100 downsample of a constant image is constant. -/
def solidImg (w h r g b : Nat) : Image :=
  { width := w
    height := h
    pix := fun _ _ => .vtup [r, g, b]
    resized100 := List.replicate 10000 (.vtup [r, g, b]) }

/-- A 4×4 PIL mode-"L" image: `getpixel` returns the bare int 128. -/
def grayIntImg : Image :=
  { width := 4, height := 4
    pix := fun _ _ => .vint 128
    resized100 := List.replicate 10000 (.vint 128) }

/-- A 4×4 image whose pixel reads yield the 1-tuple `(128,)`. -/
def grayTupImg : Image :=
  { width := 4, height := 4
    pix := fun _ _ => .vtup [128]
    resized100 := List.replicate 10000 (.vtup [128]) }

/-- A 4×4 mode-"LA" image: `getpixel` returns the 2-tuple `(128, 255)`. -/
def grayAlphaImg : Image :=
  { width := 4, height := 4
    pix := fun _ _ => .vtup [128, 255]
    resized100 := List.replicate 10000 (.vtup [128, 255]) }

/-- A minimal analysis record, used for concrete report/sort instances. -/
def mkA (o : Char) (h : Nat) : Analysis :=
  { filename := "", orientation := o, hour := h, time := pad2 h ++ ":00"
    width := 1, height := 1, vertical_gradient := [], sky_zones := []
    brightness := ⟨0, 0, true, false⟩ }

/-- Modelled from the spec: the claimed parser contract — the stem
(case-insensitively, extension ignored) is *exactly* an orientation
letter followed by exactly two digits denoting an hour 0–23; everything
else is a no-match. -/
def claimedStemMatch (filename : String) : Option (Char × Nat) :=
  match (pathStem filename).data.map pyUpper with
  | [o, d1, d2] =>
    if o ∈ ORIENTATIONS ∧ isAsciiDigit d1 ∧ isAsciiDigit d2 ∧
        (d1.toNat - 48) * 10 + (d2.toNat - 48) ≤ 23 then
      some (o, (d1.toNat - 48) * 10 + (d2.toNat - 48))
    else none
  | _ => none

/-- The amended parser contract: as `claimedStemMatch`, but a stem that
is a valid match followed by one trailing newline also parses (Python's
`$` matches just before a newline at the end of the string). -/
def claimedStemMatchAmended (filename : String) : Option (Char × Nat) :=
  match (pathStem filename).data.map pyUpper with
  | [o, d1, d2] =>
    if o ∈ ORIENTATIONS ∧ isAsciiDigit d1 ∧ isAsciiDigit d2 ∧
        (d1.toNat - 48) * 10 + (d2.toNat - 48) ≤ 23 then
      some (o, (d1.toNat - 48) * 10 + (d2.toNat - 48))
    else none
  | [o, d1, d2, nl] =>
    if nl = '\n' ∧ o ∈ ORIENTATIONS ∧ isAsciiDigit d1 ∧ isAsciiDigit d2 ∧
        (d1.toNat - 48) * 10 + (d2.toNat - 48) ≤ 23 then
      some (o, (d1.toNat - 48) * 10 + (d2.toNat - 48))
    else none
  | _ => none

/-- Whether `s` is an ASCII string (the domain on which `pyUpper` and ASCII `\d`
model Python's Unicode-aware `str.upper` and `\d` exactly). -/
def asciiOnly (s : String) : Prop :=
  ∀ c ∈ s.data, c.toNat < 128

instance (s : String) : Decidable (asciiOnly s) := by
  unfold asciiOnly; infer_instance

/-- A 4×8 image whose top row reads as a bare int (so the samples that
hit `y = 0` fail) while every other row is a normal RGB tuple. -/
def c8img : Image :=
  { width := 4, height := 8
    pix := fun _ y => if y = 0 then .vint 5 else .vtup [1, 2, 3]
    resized100 := [] }

/-- The luma numerator of `analyze_brightness`: only pixels with at
least three channels contribute. -/
def lumaFilterSum (ps : List PyVal) : ℚ :=
  ((ps.filter fun p =>
    match p with
    | .vint _ => false
    | .vtup c => 3 ≤ c.length).map fun p =>
      match p with
      | .vint _ => 0
      | .vtup c => luma c).sum

/-- A `filterMap` over a list on which `f` always succeeds is a `map`. -/
theorem filterMap_eq_map_of_forall_some {α β : Type} {f : α → Option β}
    {g : α → β} :
    ∀ {l : List α}, (∀ a ∈ l, f a = some (g a)) → l.filterMap f = l.map g := by
  intro l
  induction l with
  | nil => intro _; rfl
  | cons a t ih =>
    intro h
    rw [List.filterMap_cons, h a (List.mem_cons_self a t), List.map_cons,
      ih fun x hx => h x (List.mem_cons_of_mem a hx)]

/-- Removing an element on which `f` fails does not change a `filterMap`:
the failed position is omitted and every other position is kept. -/
theorem filterMap_eraseIdx_of_none {α β : Type} (f : α → Option β) :
    ∀ (l : List α) (k : Nat) (hk : k < l.length),
      f (l.get ⟨k, hk⟩) = none →
      l.filterMap f = (l.eraseIdx k).filterMap f := by
  intro l
  induction l with
  | nil => intro k hk; simp at hk
  | cons a t ih =>
    intro k hk hnone
    cases k with
    | zero =>
      simp only [List.get] at hnone
      simp [List.filterMap_cons, hnone, List.eraseIdx]
    | succ k =>
      simp only [List.length_cons, Nat.succ_lt_succ_iff] at hk
      simp only [List.get] at hnone
      simp only [List.eraseIdx, List.filterMap_cons]
      cases f a with
      | none => exact ih k hk hnone
      | some c => rw [ih k hk hnone]

/-- The value of the brightness accumulation loop when every pixel is a
tuple: the sum of the lumas of the pixels with at least three channels. -/
theorem lumaTotal_eq_sum_of_tuples :
    ∀ (l : List PyVal) (t : ℚ),
      (∀ p ∈ l, ∃ c, p = PyVal.vtup c) →
      l.foldl
        (fun acc p =>
          acc.bind fun t =>
            match p with
            | .vint _ => none
            | .vtup c => some (t + if 3 ≤ c.length then luma c else 0))
        (some t) =
        some (t + ((l.filter fun p =>
          match p with
          | .vint _ => false
          | .vtup c => 3 ≤ c.length).map fun p =>
            match p with
            | .vint _ => 0
            | .vtup c => luma c).sum) := by
  intro l
  induction l with
  | nil => intro t _; simp
  | cons p rest ih =>
    intro t hall
    obtain ⟨c, rfl⟩ := hall p (List.mem_cons_self p rest)
    have hrest : ∀ q ∈ rest, ∃ d, q = PyVal.vtup d := fun q hq =>
      hall q (List.mem_cons_of_mem _ hq)
    simp only [List.foldl_cons, Option.some_bind]
    rw [ih _ hrest, List.filter_cons]
    by_cases hc : 3 ≤ c.length
    · rw [if_pos hc, if_pos (decide_eq_true hc), List.map_cons, List.sum_cons]
      exact congrArg some (by ring)
    · rw [if_neg hc, if_neg (by simpa using hc)]
      exact congrArg some (by ring)

/-- Theorem: `analyze_vertical_gradient` keeps exactly the successful samples, in
order. -/
theorem gradient_eq_filterMap (img : Image) (N : Nat) :
    analyze_vertical_gradient img N =
      (List.range N).filterMap (sampleGradient img N) := by
  unfold analyze_vertical_gradient
  have h : ∀ (l : List Nat) (acc : List ColorSample),
      l.foldl (fun acc i =>
        match sampleGradient img N i with
        | some c => acc ++ [c]
        | none => acc) acc = acc ++ l.filterMap (sampleGradient img N) := by
    intro l
    induction l with
    | nil => intro acc; simp
    | cons a t ih =>
      intro acc
      cases ha : sampleGradient img N a with
      | none => simp [List.foldl_cons, ha, ih]
      | some c => simp [List.foldl_cons, ha, ih (acc ++ [c])]
  simpa using h (List.range N) []

/-- Theorem: `analyze_sky_zones` keeps exactly the successful zone samples, in
insertion order. -/
theorem zones_eq_filterMap (img : Image) :
    analyze_sky_zones img =
      zonesList.filterMap fun z => (sampleZone img z.2).map fun c => (z.1, c) := by
  unfold analyze_sky_zones
  have h : ∀ (l : List (String × ℚ)) (acc : List (String × ZoneSample)),
      l.foldl (fun acc z =>
        match sampleZone img z.2 with
        | some c => acc ++ [(z.1, c)]
        | none => acc) acc =
        acc ++ l.filterMap fun z => (sampleZone img z.2).map fun c => (z.1, c) := by
    intro l
    induction l with
    | nil => intro acc; simp
    | cons z t ih =>
      intro acc
      cases hz : sampleZone img z.2 with
      | none => simp [List.foldl_cons, hz, ih]
      | some c => simp [List.foldl_cons, hz, ih (acc ++ [(z.1, c)])]
  simpa using h zonesList []

/-- The brightness loop result, in terms of `lumaFilterSum`. -/
theorem lumaTotal_eq_lumaFilterSum (ps : List PyVal)
    (hall : ∀ p ∈ ps, ∃ c, p = PyVal.vtup c) :
    lumaTotal ps = some (lumaFilterSum ps) := by
  unfold lumaTotal lumaFilterSum
  simpa using lumaTotal_eq_sum_of_tuples ps 0 hall

/-- On a solid RGB image every in-range gradient sample succeeds and
records the solid color (any sample count except the degenerate 1). -/
theorem sampleGradient_solid (w h r g b N i : Nat) (hw : 1 ≤ w) (hh : 1 ≤ h)
    (hN : N ≠ 1) :
    sampleGradient (solidImg w h r g b) N i =
      some { position := pyround ((i : ℚ) / ((N : ℚ) - 1)) 2
             rgbR := r, rgbG := g, rgbB := b
             hex := rgb_to_hex r g b
             godot := rgb_to_godot r g b } := by
  have hx0 : (0 : Int) ≤ ((w / 2 : Nat) : Int) := Int.natCast_nonneg _
  have hxw : ((w / 2 : Nat) : Int) < (w : Int) := by
    exact_mod_cast Nat.div_lt_self hw (by norm_num)
  have hy0 : (0 : Int) ≤ gradientY h N i := by
    unfold gradientY
    exact le_min (Int.natCast_nonneg _) (by omega)
  have hyh : gradientY h N i < (h : Int) := by
    have : gradientY h N i ≤ (h : Int) - 1 := min_le_right _ _
    omega
  unfold sampleGradient getpixel
  simp only [solidImg]
  rw [if_pos ⟨hx0, hxw, hy0, hyh⟩]
  simp only [pixelRGB]
  rw [if_neg hN]

/-- On a solid RGB image every zone sample with a nonnegative relative
offset succeeds and records the solid color. -/
theorem sampleZone_solid (w h r g b : Nat) (p : ℚ) (hp : 0 ≤ p)
    (hw : 1 ≤ w) (hh : 1 ≤ h) :
    sampleZone (solidImg w h r g b) p =
      some { rgbR := r, rgbG := g, rgbB := b
             hex := rgb_to_hex r g b
             godot := rgb_to_godot r g b } := by
  have hx0 : (0 : Int) ≤ ((w / 2 : Nat) : Int) := Int.natCast_nonneg _
  have hxw : ((w / 2 : Nat) : Int) < (w : Int) := by
    exact_mod_cast Nat.div_lt_self hw (by norm_num)
  have hy0 : (0 : Int) ≤ zoneY h p := by
    unfold zoneY
    refine le_min (Int.floor_nonneg.mpr (mul_nonneg (by positivity) hp)) (by omega)
  have hyh : zoneY h p < (h : Int) := by
    have : zoneY h p ≤ (h : Int) - 1 := min_le_right _ _
    omega
  unfold sampleZone getpixel
  simp only [solidImg]
  rw [if_pos ⟨hx0, hxw, hy0, hyh⟩]
  simp only [pixelRGB]

/-- C3: the claim says a sampled pixel with fewer than 3 channels is
broadcast to RGB by replication and the sample included; the code
instead drops such samples.  For a bare-int pixel (PIL grayscale),
`len(pixel)` raises `TypeError`; for a 1- or 2-channel tuple, the else
branch binds the whole tuple to `r`, `g`, `b` and the hex formatting
raises.  Either way the swallowed exception omits the sample, so on an
all-grayscale image both samplers return nothing — and the brightness
pass, which has no try/except, fails outright on the bare-int case. -/
theorem c3_code_evaluation :
    analyze_vertical_gradient grayIntImg 10 = [] ∧
    analyze_sky_zones grayIntImg = [] ∧
    analyze_vertical_gradient grayTupImg 10 = [] ∧
    analyze_sky_zones grayTupImg = [] ∧
    analyze_vertical_gradient grayAlphaImg 10 = [] ∧
    analyze_sky_zones grayAlphaImg = [] := by
  with_unfolding_all decide

/-- C4: on a solid-color RGB image of any positive size, the vertical
gradient returns all `N` samples (for any configured sample count other
than the degenerate `N = 1`, cf. the `num_samples = 1` division-by-zero
bug) and the sky-zone analysis returns all six zones, every sample
recording exactly the image's color as RGB, hex and godot triple. -/
theorem c4_theorem (w h r g b N : Nat) (hw : 1 ≤ w) (hh : 1 ≤ h)
    (hN : N ≠ 1) :
    analyze_vertical_gradient (solidImg w h r g b) N =
      (List.range N).map (fun i =>
        { position := pyround ((i : ℚ) / ((N : ℚ) - 1)) 2
          rgbR := r, rgbG := g, rgbB := b
          hex := rgb_to_hex r g b
          godot := rgb_to_godot r g b }) ∧
    analyze_sky_zones (solidImg w h r g b) =
      zonesList.map (fun z =>
        (z.1, { rgbR := r, rgbG := g, rgbB := b
                hex := rgb_to_hex r g b
                godot := rgb_to_godot r g b })) := by
  constructor
  · rw [gradient_eq_filterMap]
    exact filterMap_eq_map_of_forall_some
      (fun i _ => sampleGradient_solid w h r g b N i hw hh hN)
  · rw [zones_eq_filterMap]
    have hp : ∀ z ∈ zonesList, (0 : ℚ) ≤ z.2 := by norm_num [zonesList]
    refine filterMap_eq_map_of_forall_some (fun z hz => ?_)
    rw [sampleZone_solid w h r g b z.2 (hp z hz) hw hh]
    rfl

/-- Witness for C4 at a concrete 3×5 solid image with `N = 2`. -/
theorem c4_witness :
    1 ≤ 3 ∧ 1 ≤ 5 ∧ (2 : Nat) ≠ 1 ∧
    (analyze_vertical_gradient (solidImg 3 5 0 128 255) 2 =
      (List.range 2).map (fun i =>
        { position := pyround ((i : ℚ) / ((2 : ℚ) - 1)) 2
          rgbR := 0, rgbG := 128, rgbB := 255
          hex := rgb_to_hex 0 128 255
          godot := rgb_to_godot 0 128 255 }) ∧
     analyze_sky_zones (solidImg 3 5 0 128 255) =
      zonesList.map (fun z =>
        (z.1, { rgbR := 0, rgbG := 128, rgbB := 255
                hex := rgb_to_hex 0 128 255
                godot := rgb_to_godot 0 128 255 }))) :=
  ⟨by norm_num, by norm_num, by decide,
   c4_theorem 3 5 0 128 255 2 (by norm_num) (by norm_num) (by decide)⟩

/-- C5: for `num_samples ≥ 2` the sampled y-coordinates follow
`min(floor(h*i/(N-1)), h-1)` — illustrated concretely for h = 7, N = 10,
where the first sample is y = 0 and the last y = 6 = h-1 — but for
`num_samples = 1` the claimed midpoint sample is never produced: the
position expression `round(i / (num_samples - 1), 2)` raises
`ZeroDivisionError` inside the try block, the exception is swallowed,
and the gradient comes back empty. -/
theorem c5_code_evaluation :
    analyze_vertical_gradient (solidImg 4 4 1 2 3) 1 = [] ∧
    gradientY 4 1 0 = 2 ∧
    (List.range 10).map (gradientY 7 10) = [0, 0, 1, 2, 3, 3, 4, 5, 6, 6] := by
  decide

/-- C6: the report's analyses sequence is sorted ascending by the pair
(orientation letter, hour number) — lexicographic on the letter, numeric
on the hour — for every input order, and it is a permutation of the
input; in particular [N06, E12, E01] sorts to [E01, E12, N06]. -/
theorem c6_theorem :
    (∀ l : List Analysis,
      List.Sorted keyLE (sortAnalyses l) ∧ (sortAnalyses l).Perm l) ∧
    sortAnalyses [mkA 'N' 6, mkA 'E' 12, mkA 'E' 1] =
      [mkA 'E' 1, mkA 'E' 12, mkA 'N' 6] := by
  refine ⟨fun l => ⟨List.sorted_insertionSort keyLE l,
    List.perm_insertionSort keyLE l⟩, by decide⟩

/-- C1 counterexample: the same input analyses with two equally valid
enumerations of the orientation set — Python's `list({...})` order
depends on the per-process string hash seed — produce different full
reports, so the report is not a function of the input set alone. -/
theorem c1_counterexample :
    validOrientEnum [mkA 'E' 12, mkA 'N' 6] ['E', 'N'] ∧
    validOrientEnum [mkA 'E' 12, mkA 'N' 6] ['N', 'E'] ∧
    (generate_report [mkA 'E' 12, mkA 'N' 6] ['E', 'N']).1 ≠
      (generate_report [mkA 'E' 12, mkA 'N' 6] ['N', 'E']).1 := by
  with_unfolding_all decide

/-- C1 amended: the sorted analyses sequence, the summary's image count
and label, and the reduced engine-ready export are deterministic
functions of the input analyses; the summary's orientations list is
deterministic only up to permutation (its order follows Python's
hash-seed-dependent set iteration order). -/
theorem c1_theorem (l : List Analysis) (e1 e2 : List Char)
    (h1 : validOrientEnum l e1) (h2 : validOrientEnum l e2) :
    (generate_report l e1).1.analyses = (generate_report l e2).1.analyses ∧
    (generate_report l e1).1.summary.total_images =
      (generate_report l e2).1.summary.total_images ∧
    (generate_report l e1).1.summary.purpose =
      (generate_report l e2).1.summary.purpose ∧
    (generate_report l e1).1.summary.orientations.Perm
      (generate_report l e2).1.summary.orientations ∧
    (generate_report l e1).2 = (generate_report l e2).2 := by
  refine ⟨rfl, rfl, rfl, ?_, rfl⟩
  show e1.Perm e2
  exact (List.perm_ext_iff_of_nodup h1.1 h2.1).mpr fun a =>
    ⟨fun ha => h2.2.2 a (h1.2.1 a ha), fun ha => h1.2.2 a (h2.2.1 a ha)⟩

/-- Witness for C1 at a concrete input and two concrete enumerations. -/
theorem c1_witness :
    validOrientEnum [mkA 'W' 3] ['W'] ∧ validOrientEnum [mkA 'W' 3] ['W'] ∧
    ((generate_report [mkA 'W' 3] ['W']).1.analyses =
      (generate_report [mkA 'W' 3] ['W']).1.analyses ∧
    (generate_report [mkA 'W' 3] ['W']).1.summary.total_images =
      (generate_report [mkA 'W' 3] ['W']).1.summary.total_images ∧
    (generate_report [mkA 'W' 3] ['W']).1.summary.purpose =
      (generate_report [mkA 'W' 3] ['W']).1.summary.purpose ∧
    (generate_report [mkA 'W' 3] ['W']).1.summary.orientations.Perm
      (generate_report [mkA 'W' 3] ['W']).1.summary.orientations ∧
    (generate_report [mkA 'W' 3] ['W']).2 = (generate_report [mkA 'W' 3] ['W']).2) :=
  ⟨by decide, by decide, c1_theorem [mkA 'W' 3] ['W'] ['W'] (by decide) (by decide)⟩

/-- C2 counterexample: the filename `"E12\n"` — its stem is not an
orientation letter followed by exactly two digits, so the claim requires
the no-match result — yet `re.match` succeeds because `$` also matches
just before a trailing newline, and the parser returns `('E', 12)`. -/
theorem c2_counterexample :
    claimedStemMatch "E12\n" = none ∧
    parse_orientation_hour_from_filename "E12\n" = some ('E', 12) := by
  decide

/-- C2 amended: on ASCII, slash-free filenames (the domain where the
embedding models Python's Unicode-aware `upper`, `\d` and `pathlib`
exactly), the parser accepts precisely the claimed stems *plus* those
followed by one trailing newline, returning the claimed (orientation,
hour) pair; everything else is a no-match. -/
theorem c2_theorem (fn : String) (h1 : asciiOnly fn) (h2 : '/' ∉ fn.data) :
    parse_orientation_hour_from_filename fn = claimedStemMatchAmended fn := by
  unfold parse_orientation_hour_from_filename claimedStemMatchAmended regexMatchWENSU
  rcases hnm : (pathStem fn).data.map pyUpper with _ | ⟨o, _ | ⟨d1, _ | ⟨d2, _ | ⟨nl, _ | _⟩⟩⟩⟩ <;>
    simp only [] <;> split_ifs <;> simp_all

/-- Witness for C2 at the concrete filename `"n23.PNG"`. -/
theorem c2_witness :
    asciiOnly "n23.PNG" ∧ '/' ∉ "n23.PNG".data ∧
    parse_orientation_hour_from_filename "n23.PNG" =
      claimedStemMatchAmended "n23.PNG" :=
  ⟨by decide, by decide, c2_theorem "n23.PNG" (by decide) (by decide)⟩

/-- C7: on a fully black 100×100 downsample the brightness analysis
yields average 0.0 with is_dark = true and is_bright = false; on a
fully white one it yields average 255.0 with is_dark = false and
is_bright = true (average < 85 and average > 170 respectively, taken
over the luma mean of all 10000 downsampled pixels). -/
theorem c7_theorem (ps qs : List PyVal)
    (hpl : ps.length = 10000) (hpb : ∀ p ∈ ps, p = PyVal.vtup [0, 0, 0])
    (hql : qs.length = 10000) (hqw : ∀ p ∈ qs, p = PyVal.vtup [255, 255, 255]) :
    analyze_brightness ps =
      some { average := 0, normalized := 0, isDark := true, isBright := false } ∧
    analyze_brightness qs =
      some { average := 255, normalized := 1, isDark := false, isBright := true } := by
  constructor
  · have hall : ∀ p ∈ ps, ∃ c, p = PyVal.vtup c := fun p hp => ⟨_, hpb p hp⟩
    have hsum : lumaFilterSum ps = 0 := by
      apply List.sum_eq_zero
      intro x hx
      obtain ⟨p, hp, rfl⟩ := List.mem_map.mp hx
      obtain rfl := hpb p (List.mem_of_mem_filter hp)
      norm_num [luma]
    unfold analyze_brightness
    rw [lumaTotal_eq_lumaFilterSum ps hall, hsum]
    dsimp only
    rw [hpl]
    with_unfolding_all decide
  · have hall : ∀ p ∈ qs, ∃ c, p = PyVal.vtup c := fun p hp => ⟨_, hqw p hp⟩
    have hsum : lumaFilterSum qs = 2550000 := by
      unfold lumaFilterSum
      have hf : qs.filter (fun p =>
          match p with
          | .vint _ => false
          | .vtup c => 3 ≤ c.length) = qs := by
        apply List.filter_eq_self.mpr
        intro p hp
        obtain rfl := hqw p hp
        decide
      rw [hf]
      have hm : qs.map (fun p =>
          match p with
          | .vint _ => (0 : ℚ)
          | .vtup c => luma c) = List.replicate 10000 (255 : ℚ) := by
        apply List.eq_replicate_iff.mpr
        constructor
        · simpa using hql
        · intro b hb
          obtain ⟨p, hp, rfl⟩ := List.mem_map.mp hb
          obtain rfl := hqw p hp
          norm_num [luma]
      rw [hm, List.sum_replicate]
      norm_num
    unfold analyze_brightness
    rw [lumaTotal_eq_lumaFilterSum qs hall, hsum]
    dsimp only
    rw [hql]
    with_unfolding_all decide

/-- Witness for C7 at the concrete all-black and all-white downsample. -/
theorem c7_witness :
    (List.replicate 10000 (PyVal.vtup [0, 0, 0])).length = 10000 ∧
    (∀ p ∈ List.replicate 10000 (PyVal.vtup [0, 0, 0]), p = PyVal.vtup [0, 0, 0]) ∧
    (List.replicate 10000 (PyVal.vtup [255, 255, 255])).length = 10000 ∧
    (∀ p ∈ List.replicate 10000 (PyVal.vtup [255, 255, 255]),
      p = PyVal.vtup [255, 255, 255]) ∧
    (analyze_brightness (List.replicate 10000 (PyVal.vtup [0, 0, 0])) =
      some { average := 0, normalized := 0, isDark := true, isBright := false } ∧
     analyze_brightness (List.replicate 10000 (PyVal.vtup [255, 255, 255])) =
      some { average := 255, normalized := 1, isDark := false, isBright := true }) :=
  ⟨List.length_replicate .., fun p hp => List.eq_of_mem_replicate hp,
   List.length_replicate .., fun p hp => List.eq_of_mem_replicate hp,
   c7_theorem _ _ (List.length_replicate ..) (fun p hp => List.eq_of_mem_replicate hp)
     (List.length_replicate ..) (fun p hp => List.eq_of_mem_replicate hp)⟩

/-- C8: a failed pixel read costs exactly the failing sample: the
gradient result equals the samples over the index range with the failing
index removed, and the zone result equals the zones with the failing
zone removed; both analyses still return (a list) rather than failing. -/
theorem c8_theorem (img : Image) (N i : Nat) (hi : i < N)
    (hfail : sampleGradient img N i = none)
    (k : Nat) (hk : k < zonesList.length)
    (hzfail : sampleZone img (zonesList.get ⟨k, hk⟩).2 = none) :
    analyze_vertical_gradient img N =
      ((List.range N).eraseIdx i).filterMap (sampleGradient img N) ∧
    analyze_sky_zones img =
      (zonesList.eraseIdx k).filterMap
        (fun z => (sampleZone img z.2).map fun c => (z.1, c)) := by
  constructor
  · rw [gradient_eq_filterMap]
    refine filterMap_eraseIdx_of_none _ (List.range N) i (by simpa) ?_
    simpa using hfail
  · rw [zones_eq_filterMap]
    refine filterMap_eraseIdx_of_none _ zonesList k hk ?_
    show (sampleZone img (zonesList.get ⟨k, hk⟩).2).map _ = none
    rw [hzfail]
    rfl

/-- Witness for C8 on the concrete image whose top row fails to decode
as RGB: gradient index 0 and the zenith zone are the failing samples. -/
theorem c8_witness :
    (0 : Nat) < 10 ∧ sampleGradient c8img 10 0 = none ∧
    (0 : Nat) < zonesList.length ∧
    sampleZone c8img (zonesList.get ⟨0, by decide⟩).2 = none ∧
    (analyze_vertical_gradient c8img 10 =
      ((List.range 10).eraseIdx 0).filterMap (sampleGradient c8img 10) ∧
     analyze_sky_zones c8img =
      (zonesList.eraseIdx 0).filterMap
        (fun z => (sampleZone c8img z.2).map fun c => (z.1, c))) :=
  ⟨by decide, by decide, by decide, by with_unfolding_all decide,
   c8_theorem c8img 10 0 (by decide) (by decide) 0 (by decide)
     (by with_unfolding_all decide)⟩

/-- C9: with all pixels tuple-valued, the brightness average divides the
luma sum of the ≥3-channel pixels by the *full* downsample pixel count
(10000, never zero): short tuples contribute zero to the numerator but
still count in the denominator, pulling the average toward 0 — e.g. one
white RGB pixel plus one 2-channel pixel averages 127.5, not 255. -/
theorem c9_theorem (ps : List PyVal)
    (hall : ∀ p ∈ ps, ∃ c, p = PyVal.vtup c) (hlen : ps.length = 10000) :
    analyze_brightness ps =
      some { average := pyround (lumaFilterSum ps / 10000) 2
             normalized := pyround (lumaFilterSum ps / 10000 / 255) 3
             isDark := decide (lumaFilterSum ps / 10000 < 85)
             isBright := decide (170 < lumaFilterSum ps / 10000) } ∧
    analyze_brightness [PyVal.vtup [255, 255, 255], PyVal.vtup [100, 50]] =
      some { average := 255/2, normalized := 1/2
             isDark := false, isBright := false } := by
  constructor
  · unfold analyze_brightness
    rw [lumaTotal_eq_lumaFilterSum ps hall]
    dsimp only
    rw [hlen]
    norm_num
  · with_unfolding_all decide

/-- Witness for C9 at a concrete all-tuple downsample (9999 black RGB
pixels and one 2-channel pixel). -/
theorem c9_witness :
    (∀ p ∈ List.replicate 9999 (PyVal.vtup [0, 0, 0]) ++ [PyVal.vtup [7, 7]],
      ∃ c, p = PyVal.vtup c) ∧
    (List.replicate 9999 (PyVal.vtup [0, 0, 0]) ++ [PyVal.vtup [7, 7]]).length = 10000 ∧
    (analyze_brightness
        (List.replicate 9999 (PyVal.vtup [0, 0, 0]) ++ [PyVal.vtup [7, 7]]) =
      some { average :=
              pyround (lumaFilterSum (List.replicate 9999 (PyVal.vtup [0, 0, 0]) ++
                [PyVal.vtup [7, 7]]) / 10000) 2
             normalized :=
              pyround (lumaFilterSum (List.replicate 9999 (PyVal.vtup [0, 0, 0]) ++
                [PyVal.vtup [7, 7]]) / 10000 / 255) 3
             isDark :=
              decide (lumaFilterSum (List.replicate 9999 (PyVal.vtup [0, 0, 0]) ++
                [PyVal.vtup [7, 7]]) / 10000 < 85)
             isBright :=
              decide (170 < lumaFilterSum (List.replicate 9999 (PyVal.vtup [0, 0, 0]) ++
                [PyVal.vtup [7, 7]]) / 10000) } ∧
     analyze_brightness [PyVal.vtup [255, 255, 255], PyVal.vtup [100, 50]] =
      some { average := 255/2, normalized := 1/2
             isDark := false, isBright := false }) := by
  have hmem : ∀ p ∈ List.replicate 9999 (PyVal.vtup [0, 0, 0]) ++ [PyVal.vtup [7, 7]],
      ∃ c, p = PyVal.vtup c := by
    intro p hp
    rcases List.mem_append.mp hp with h | h
    · exact ⟨_, List.eq_of_mem_replicate h⟩
    · exact ⟨[7, 7], by simpa using h⟩
  have hlen : (List.replicate 9999 (PyVal.vtup [0, 0, 0]) ++
      [PyVal.vtup [7, 7]]).length = 10000 := by
    rw [List.length_append, List.length_replicate, List.length_singleton]
  exact ⟨hmem, hlen, c9_theorem _ hmem hlen⟩

/-- C10: `analyze_image` opens the image before parsing the filename, so
a malformed name yields the skip result only when the file opened
successfully; if opening also fails, the exception propagates (per-file
error path), not the skip path. -/
theorem c10_theorem :
    (∀ (image_path e : String),
      parse_orientation_hour_from_filename (basename image_path) = none →
      analyze_image image_path (.error e) = .error e) ∧
    (∀ (image_path : String) (img : Image),
      parse_orientation_hour_from_filename (basename image_path) = none →
      analyze_image image_path (.ok img) = .ok none) := by
  constructor
  · intro p e _
    rfl
  · intro p img h
    unfold analyze_image
    rw [h]

/-- Witness for C10 at the concrete malformed filename `"IMG_banner.png"`. -/
theorem c10_witness :
    parse_orientation_hour_from_filename (basename "IMG_banner.png") = none ∧
    analyze_image "IMG_banner.png" (.error "cannot identify image file") =
      .error "cannot identify image file" ∧
    analyze_image "IMG_banner.png" (.ok (solidImg 2 2 0 0 0)) = .ok none :=
  ⟨by decide, c10_theorem.1 "IMG_banner.png" _ (by decide),
   c10_theorem.2 "IMG_banner.png" _ (by decide)⟩
